import Mathlib

/-!
Verification of the GPT-Neo configuration / layer-policy file of the `oslo`
repository (`oslo/models/gpt_neo/configuration_gpt_neo.py`), as a shallow
embedding in Lean 4.

Modelling conventions:
* Python ints are `Int` (or `Nat` where the source only ever sees
  non-negative values); `range(n)` over a possibly negative `n : Int`
  iterates `n.toNat` times.
* `torch` tensors that matter only through their shape and fill are the
  record `Tensor` below (a shape and an index-to-value map over `Int`).
* A Python function that can `raise` is embedded as `Except OsloError _`
  (the source raises `ValueError`; the spec's taxonomy names these
  `ConfigurationError` / `MissingBackendError`, kept as constructors).
* A `torch` operation that faults (out-of-range advanced indexing,
  `torch.max` of an empty tensor) is embedded as `Option`-valued, `none`
  standing for the fault.
* In-place mutation (`reduce_arguments`) is embedded as state passing: the
  function returns the final states of the objects it may touch.
Float-valued configuration fields (dropouts, epsilons) play no role in any
verified property and are omitted from the embedded record.
-/

/-- Error taxonomy: the source raises `ValueError` in both places; the
spec names them `ConfigurationError` and `MissingBackendError`. -/
inductive OsloError where
  | configurationError
  | missingBackend
deriving DecidableEq, Repr

/-- Embeds `GPTNeoConfig.expand_attention_types_params`:
`for item in attention_types: for _ in range(item[1]): attentions.extend(item[0])`.
A group is `(pattern, count)`; `range` of a negative count is empty, hence
`count.toNat` repetitions. -/
def expand_attention_types_params (attention_types : List (List String × Int)) :
    List String :=
  attention_types.foldl
    (fun attentions item => attentions ++ (List.replicate item.2.toNat item.1).flatten) []

/-- Embedded `GPTNeoConfig` record: the integer- and list-valued fields the
source constructor stores (float fields omitted, see header). -/
structure GPTNeoConfig where
  vocab_size : Nat
  max_position_embeddings : Nat
  hidden_size : Nat
  num_layers : Nat
  num_heads : Nat
  window_size : Nat
  attention_types : List (List String × Int)
  attention_layers : List String
deriving DecidableEq, Repr

/-- Embeds `GPTNeoConfig.__init__`: stores the fields, computes
`attention_layers = expand_attention_types_params attention_types`, and
raises (`ValueError`, spec: `ConfigurationError`) exactly when
`len(attention_layers) != num_layers`. -/
def GPTNeoConfig.init (vocab_size max_position_embeddings hidden_size num_layers : Nat)
    (attention_types : List (List String × Int)) (num_heads window_size : Nat) :
    Except OsloError GPTNeoConfig :=
  let attention_layers := expand_attention_types_params attention_types
  if attention_layers.length ≠ num_layers then
    Except.error OsloError.configurationError
  else
    Except.ok
      { vocab_size := vocab_size
        max_position_embeddings := max_position_embeddings
        hidden_size := hidden_size
        num_layers := num_layers
        num_heads := num_heads
        window_size := window_size
        attention_types := attention_types
        attention_layers := attention_layers }

/-- Helper law: the accumulator of the expansion fold factors out. -/
theorem expand_foldl_eq (attention_types : List (List String × Int)) (acc : List String) :
    attention_types.foldl
      (fun attentions item => attentions ++ (List.replicate item.2.toNat item.1).flatten) acc =
    acc ++ (attention_types.map (fun g => (List.replicate g.2.toNat g.1).flatten)).flatten := by
  induction attention_types generalizing acc with
  | nil => simp
  | cons g gs ih => simp [ih, List.append_assoc]

/-- The expansion is the join of the per-group blocks. -/
theorem expand_eq_join (attention_types : List (List String × Int)) :
    expand_attention_types_params attention_types =
      (attention_types.map (fun g => (List.replicate g.2.toNat g.1).flatten)).flatten := by
  simpa using expand_foldl_eq attention_types []

/-- Embeds `custom_get_block_length_and_num_blocks`:
`candidates = torch.arange(1, window_size)`; keep those dividing
`seq_length`; `torch.max` of the survivors (`none` embeds the fault of
`torch.max` on an empty tensor); quotient via floor division. -/
def custom_get_block_length_and_num_blocks (seq_length window_size : Nat) :
    Option (Nat × Nat) :=
  let candidates := List.range' 1 (window_size - 1)
  let divisors := candidates.filter (fun d => seq_length % d == 0)
  match divisors.max? with
  | some largest_divisor => some (largest_divisor, seq_length / largest_divisor)
  | none => none

/-- `torch.arange(0, stop, step)` over naturals: `ceil(stop / step)` entries
`0, step, 2*step, ...`. -/
def arangeStep (stop step : Nat) : List Nat :=
  (List.range ((stop + step - 1) / step)).map (fun k => k * step)

/-- Python slice `l[:k]` for an `Int` bound `k`: a non-negative bound takes
that many elements, a negative bound drops `-k` elements from the end. -/
def pyTake {α : Type} (k : Int) (l : List α) : List α :=
  if 0 ≤ k then l.take k.toNat else l.take (l.length - (-k).toNat)

/-- Embeds `custom_unfold` along the chosen axis (the other axes are carried
pointwise and play no role in the windowing arithmetic): `low_indices =
torch.arange(0, sizedim, step)`; `min_length = torch.div(sizedim - size,
step, rounding_mode="floor") + 1`; window starts `low_indices[:min_length]`
(Python slice semantics, including a negative bound); each window reads
`size` consecutive entries, `none` embedding the fault of out-of-range
advanced indexing. -/
def custom_unfold {α : Type} (input : List α) (size step : Nat) :
    Option (List (List α)) :=
  let sizedim := input.length
  let low_indices := arangeStep sizedim step
  let min_length : Int := ((sizedim : Int) - (size : Int)).fdiv (step : Int) + 1
  let starts := pyTake min_length low_indices
  starts.mapM (fun st => (List.range size).mapM (fun j => input.get? (st + j)))

/-- Value-level tensor model: a shape and an index-to-value map (only the
shape and the fill pattern of the tensors below matter to any claim). -/
structure Tensor where
  shape : List Nat
  val : List Nat → Int

/-- `torch.zeros(shape)`. -/
def Tensor.zeros (s : List Nat) : Tensor := ⟨s, fun _ => 0⟩

/-- `torch.ones(shape)`. -/
def Tensor.ones (s : List Nat) : Tensor := ⟨s, fun _ => 1⟩

/-- `torch.cat([a, b], dim=1)` for 2-D tensors. -/
def torch_cat_dim1 (a b : Tensor) : Tensor :=
  { shape := [a.shape.getD 0 0, a.shape.getD 1 0 + b.shape.getD 1 0]
    val := fun idx =>
      if idx.getD 1 0 < a.shape.getD 1 0 then a.val idx
      else b.val [idx.getD 0 0, idx.getD 1 0 - a.shape.getD 1 0] }

/-- A value of the ordered mapping `generate_dummy_inputs` returns: either a
single tensor or the per-layer list of (key, value) cache pairs. -/
inductive DummyValue where
  | tensor (t : Tensor)
  | pastPairs (ps : List (Tensor × Tensor))

/-- Embeds `GPTNeoOnnxConfig.generate_dummy_inputs`. The call to
`super().generate_dummy_inputs` is external (transformers base class); its
result enters as the two tensors `common_input_ids` and
`common_attention_mask`. `use_past` is the adapter mode, `torch_available`
embeds `is_torch_available()`. Mirrors the source: `input_ids` first; in
use-past mode, raising (`ValueError`, spec: `MissingBackendError`) when
torch is unavailable, otherwise one pair of `torch.zeros` tensors of shape
`(batch, num_heads, 1, hidden_size // num_heads)` per layer; then
`attention_mask`, in use-past mode extended by one column of ones along
dim 1. -/
def generate_dummy_inputs (config : GPTNeoConfig) (use_past torch_available : Bool)
    (common_input_ids common_attention_mask : Tensor) :
    Except OsloError (List (String × DummyValue)) :=
  let ordered := [("input_ids", DummyValue.tensor common_input_ids)]
  match use_past, torch_available with
  | true, false => Except.error OsloError.missingBackend
  | true, true =>
    let batch := common_input_ids.shape.getD 0 0
    let past_shape := [batch, config.num_heads, 1, config.hidden_size / config.num_heads]
    let past := List.replicate config.num_layers
      (Tensor.zeros past_shape, Tensor.zeros past_shape)
    let mask := torch_cat_dim1 common_attention_mask (Tensor.ones [batch, 1])
    Except.ok (ordered ++
      [("past_key_values", DummyValue.pastPairs past),
       ("attention_mask", DummyValue.tensor mask)])
  | false, _ =>
    Except.ok (ordered ++ [("attention_mask", DummyValue.tensor common_attention_mask)])

/-- A dense (`nn.Linear`) sub-module: a weight and a bias parameter,
abstract over the parameter representation `P`. -/
structure LinearModule (P : Type) where
  weight : P
  bias : P
deriving DecidableEq, Repr

/-- A normalization sub-module (`nn.LayerNorm`): weight and bias. -/
structure NormModule (P : Type) where
  weight : P
  bias : P
deriving DecidableEq, Repr

/-- The `attn.attention` sub-module of a GPT-Neo block: the two integer
hyperparameters `reduce_arguments` writes, the four projections, and the
two non-trainable buffers. -/
structure SelfAttention (P : Type) where
  embed_dim : Nat
  num_heads : Nat
  q_proj : LinearModule P
  k_proj : LinearModule P
  v_proj : LinearModule P
  out_proj : LinearModule P
  bias : P
  masked_bias : P
deriving DecidableEq, Repr

/-- The `attn` wrapper holding the attention sub-module. -/
structure AttnWrapper (P : Type) where
  attention : SelfAttention P
deriving DecidableEq, Repr

/-- The `mlp` sub-module of a GPT-Neo block. -/
structure MLPModule (P : Type) where
  c_fc : LinearModule P
  c_proj : LinearModule P
deriving DecidableEq, Repr

/-- One GPT-Neo transformer block, with the sub-modules the layer policy
touches. -/
structure GPTNeoBlock (P : Type) where
  ln_1 : NormModule P
  attn : AttnWrapper P
  ln_2 : NormModule P
  mlp : MLPModule P
deriving DecidableEq, Repr

/-- Module kinds occurring in the policy's substitution rules. -/
inductive ModuleKind where
  | linear
  | columnParallelLinear
  | rowParallelLinear
  | embedding
  | vocabParallelEmbedding
deriving DecidableEq, Repr

/-- Modelled from the spec: the `Layer` descriptor record (`oslo.Layer`,
imported by the source file but defined outside the given sources) — a
reference to the described module, its weight tensor, an optional bias
tensor, an optional substitution rule (original module kind → parallel
module kind), and a flag for tensor-parallel participation; fields not
passed at a construction site keep their defaults (absent / parallel). -/
structure Layer (M P : Type) where
  module : Option M := none
  weight : Option P := none
  bias : Option P := none
  replace : List (ModuleKind × ModuleKind) := []
  parallel : Bool := true
deriving DecidableEq, Repr

/-- Embeds `GPTNeoLayerPolicy.reduce_arguments`, which mutates
`layer.attn.attention.embed_dim` and `layer.attn.attention.num_heads` in
place; state passing returns the final states of the block and of the
configuration it reads. -/
def reduce_arguments {P : Type} (layer : GPTNeoBlock P) (world_size : Nat)
    (config : GPTNeoConfig) : GPTNeoBlock P × GPTNeoConfig :=
  ({ layer with
      attn := { layer.attn with
        attention := { layer.attn.attention with
          embed_dim := config.hidden_size / world_size
          num_heads := config.num_heads / world_size } } },
   config)

/-- Embeds `GPTNeoLayerPolicy.attn_qkv`: three descriptors (q, k, v), each
with the projection module and its weight, the rule
`nn.Linear → ColumnParallelLinear`, and no bias. -/
def attn_qkv {P : Type} (layer : GPTNeoBlock P) (_config : GPTNeoConfig) :
    List (Layer (LinearModule P) P) :=
  [ { module := some layer.attn.attention.q_proj
      weight := some layer.attn.attention.q_proj.weight
      replace := [(ModuleKind.linear, ModuleKind.columnParallelLinear)] },
    { module := some layer.attn.attention.k_proj
      weight := some layer.attn.attention.k_proj.weight
      replace := [(ModuleKind.linear, ModuleKind.columnParallelLinear)] },
    { module := some layer.attn.attention.v_proj
      weight := some layer.attn.attention.v_proj.weight
      replace := [(ModuleKind.linear, ModuleKind.columnParallelLinear)] } ]

/-- Embeds `GPTNeoLayerPolicy.attn_out`: one descriptor for the output
projection with weight and bias and the rule
`nn.Linear → RowParallelLinear`. -/
def attn_out {P : Type} (layer : GPTNeoBlock P) (_config : GPTNeoConfig) :
    List (Layer (LinearModule P) P) :=
  [ { module := some layer.attn.attention.out_proj
      weight := some layer.attn.attention.out_proj.weight
      bias := some layer.attn.attention.out_proj.bias
      replace := [(ModuleKind.linear, ModuleKind.rowParallelLinear)] } ]

/-- C1 counterexample: the claim's own example input expands to four
entries (as the claim's concatenation law predicts), so its length is the
sum of `count * len(pattern)` over the groups, not the sum of the counts,
which here is `2`. -/
theorem claim1_counterexample :
    expand_attention_types_params [(["global", "local"], (2 : Int))] =
      ["global", "local", "global", "local"] ∧
    (expand_attention_types_params [(["global", "local"], (2 : Int))]).length ≠ 2 := by
  constructor
  · rfl
  · decide

/-- C1 (amended): for groups with non-negative counts, the expansion is the
left-to-right concatenation of `count` repetitions of each pattern in group
order, and its length is the sum over the groups of
`count * length(pattern)` (not the bare sum of the counts); the claim's
example expands to `["global", "local", "global", "local"]`. -/
theorem claim1_amended (groups : List (List String × Int))
    (h : ∀ g ∈ groups, 0 ≤ g.2) :
    expand_attention_types_params groups =
      (groups.map (fun g => (List.replicate g.2.toNat g.1).flatten)).flatten ∧
    (expand_attention_types_params groups).length =
      (groups.map (fun g => g.2.toNat * g.1.length)).sum ∧
    expand_attention_types_params [(["global", "local"], (2 : Int))] =
      ["global", "local", "global", "local"] := by
  refine ⟨expand_eq_join groups, ?_, rfl⟩
  rw [expand_eq_join groups]
  simp [List.length_flatten, Function.comp_def]

/-- C1 witness: the amended theorem applied at the claim's example input. -/
theorem claim1_witness :
    expand_attention_types_params [(["global", "local"], (2 : Int))] =
      ([(["global", "local"], (2 : Int))].map
        (fun g => (List.replicate g.2.toNat g.1).flatten)).flatten ∧
    (expand_attention_types_params [(["global", "local"], (2 : Int))]).length =
      ([(["global", "local"], (2 : Int))].map
        (fun g => g.2.toNat * g.1.length)).sum ∧
    expand_attention_types_params [(["global", "local"], (2 : Int))] =
      ["global", "local", "global", "local"] :=
  claim1_amended [(["global", "local"], (2 : Int))] (by decide)

/-- C9 counterexample: a group with repeat count `-1` makes the expander
return the empty list normally — `range` of a negative count is empty — so
no `ConfigurationError` is raised for negative counts. -/
theorem claim9_counterexample :
    expand_attention_types_params [(["global"], (-1 : Int))] = ([] : List String) := by
  rfl

/-- C9 (amended): the expander never raises: a negative repeat count is
silently treated as zero repetitions (every count may be clamped at zero
without changing the result), and the function is a pure, total,
deterministic function of its input. -/
theorem claim9_amended (groups : List (List String × Int)) :
    expand_attention_types_params groups =
      expand_attention_types_params (groups.map (fun g => (g.1, max g.2 0))) ∧
    expand_attention_types_params [(["global"], (-1 : Int))] =
      expand_attention_types_params [(["global"], (0 : Int))] := by
  refine ⟨?_, rfl⟩
  rw [expand_eq_join, expand_eq_join, List.map_map]
  congr 1
  apply List.map_congr_left
  intro g _
  have hmax : (max g.2 0).toNat = g.2.toNat := by omega
  simp [Function.comp_def, hmax]

/-- C3: constructing a `GPTNeoConfig` raises `ConfigurationError` exactly
when the expanded per-layer attention-type list does not have `num_layers`
entries and succeeds when it does; with `num_layers = 4`, groups expanding
to 3 entries raise while groups expanding to exactly 4 entries succeed. -/
theorem claim3 (vocab_size max_position_embeddings hidden_size num_layers : Nat)
    (attention_types : List (List String × Int)) (num_heads window_size : Nat) :
    ((expand_attention_types_params attention_types).length ≠ num_layers →
      GPTNeoConfig.init vocab_size max_position_embeddings hidden_size num_layers
        attention_types num_heads window_size =
        Except.error OsloError.configurationError) ∧
    ((expand_attention_types_params attention_types).length = num_layers →
      ∃ c, GPTNeoConfig.init vocab_size max_position_embeddings hidden_size num_layers
        attention_types num_heads window_size = Except.ok c) ∧
    GPTNeoConfig.init 50257 2048 2048 4 [(["global"], (3 : Int))] 16 256 =
      Except.error OsloError.configurationError ∧
    (∃ c, GPTNeoConfig.init 50257 2048 2048 4 [(["global"], (4 : Int))] 16 256 =
      Except.ok c) := by
  refine ⟨fun hne => ?_, fun heq => ?_, by rfl, ⟨_, rfl⟩⟩
  · simp [GPTNeoConfig.init, hne]
  · simp [GPTNeoConfig.init, heq]

/-- C3 witness: the construction theorem applied at the claim's failing
example, with the length-mismatch hypothesis discharged concretely. -/
theorem claim3_witness :
    (expand_attention_types_params [(["global"], (3 : Int))]).length ≠ 4 ∧
    GPTNeoConfig.init 50257 2048 2048 4 [(["global"], (3 : Int))] 16 256 =
      Except.error OsloError.configurationError :=
  ⟨by decide,
   (claim3 50257 2048 2048 4 [(["global"], (3 : Int))] 16 256).1 (by decide)⟩

/-- C2: when some `d` in `[1, window_size)` divides `seq_length`, the
resolver returns the largest such divisor as the window length together
with the exact quotient; in particular `(12, 10) ↦ (6, 2)` and
`(7, 5) ↦ (1, 7)`. -/
theorem claim2 (seq_length window_size : Nat) (hseq : 0 < seq_length)
    (hwin : 0 < window_size)
    (hex : ∃ d, 1 ≤ d ∧ d < window_size ∧ seq_length % d = 0) :
    (∃ w, custom_get_block_length_and_num_blocks seq_length window_size =
        some (w, seq_length / w) ∧
      1 ≤ w ∧ w < window_size ∧ seq_length % w = 0 ∧
      (∀ d, 1 ≤ d → d < window_size → seq_length % d = 0 → d ≤ w) ∧
      w * (seq_length / w) = seq_length) ∧
    custom_get_block_length_and_num_blocks 12 10 = some (6, 2) ∧
    custom_get_block_length_and_num_blocks 7 5 = some (1, 7) := by
  refine ⟨?_, by decide, by decide⟩
  obtain ⟨d0, hd1, hd2, hd3⟩ := hex
  have hmem0 : d0 ∈ (List.range' 1 (window_size - 1)).filter
      (fun d => seq_length % d == 0) := by
    rw [List.mem_filter, List.mem_range'_1]
    refine ⟨⟨hd1, by omega⟩, by simpa using hd3⟩
  obtain ⟨w, hw⟩ := Option.isSome_iff_exists.1 (List.isSome_max?_of_mem hmem0)
  have hspec := List.max?_eq_some_iff'.1 hw
  rw [List.mem_filter, List.mem_range'_1] at hspec
  obtain ⟨⟨⟨hw1, hw2⟩, hwdvd⟩, hub⟩ := hspec
  have hwmod : seq_length % w = 0 := by simpa using hwdvd
  refine ⟨w, ?_, hw1, by omega, hwmod, ?_, ?_⟩
  · unfold custom_get_block_length_and_num_blocks
    simp only [hw]
  · intro d h1 h2 h3
    apply hub
    rw [List.mem_filter, List.mem_range'_1]
    exact ⟨⟨h1, by omega⟩, by simpa using h3⟩
  · exact Nat.mul_div_cancel' (Nat.dvd_of_mod_eq_zero hwmod)

/-- C2 witness: the resolver theorem applied at `(12, 10)` with all
hypotheses discharged concretely. -/
theorem claim2_witness :
    ((0 : Nat) < 12 ∧ (0 : Nat) < 10 ∧
      ∃ d, 1 ≤ d ∧ d < 10 ∧ 12 % d = 0) ∧
    ((∃ w, custom_get_block_length_and_num_blocks 12 10 = some (w, 12 / w) ∧
        1 ≤ w ∧ w < 10 ∧ 12 % w = 0 ∧
        (∀ d, 1 ≤ d → d < 10 → 12 % d = 0 → d ≤ w) ∧
        w * (12 / w) = 12) ∧
      custom_get_block_length_and_num_blocks 12 10 = some (6, 2) ∧
      custom_get_block_length_and_num_blocks 7 5 = some (1, 7)) :=
  ⟨⟨by decide, by decide, ⟨6, by decide⟩⟩,
   claim2 12 10 (by decide) (by decide) ⟨6, by decide⟩⟩

/-- Reading `size` consecutive entries from position `st` succeeds and
yields the corresponding contiguous slice when it stays in bounds. -/
theorem mapM_get?_range {α : Type} (l : List α) (st w : Nat) (h : st + w ≤ l.length) :
    (List.range w).mapM (fun j => l.get? (st + j)) = some ((l.drop st).take w) := by
  induction w with
  | zero => rfl
  | succ n ih =>
    have h2 : st + n < l.length := by omega
    rw [List.range_succ, List.mapM_append, ih (by omega)]
    simp [List.mapM.loop, List.take_succ, List.getElem?_drop, List.get?_eq_getElem?,
      List.getElem?_eq_getElem h2]

/-- `mapM` over `Option` succeeds pointwise. -/
theorem mapM_eq_some_map {α β : Type} (l : List α) (f : α → Option β) (g : α → β)
    (h : ∀ a ∈ l, f a = some (g a)) : l.mapM f = some (l.map g) := by
  induction l with
  | nil => rfl
  | cons x xs ih =>
    rw [List.mapM_cons, h x (by simp), ih (fun a ha => h a (by simp [ha]))]
    rfl

/-- Floor division of a small negative numerator by a positive divisor. -/
theorem fdiv_neg_small {a b : Int} (hb : 0 < b) (h1 : -b ≤ a) (h2 : a < 0) :
    a.fdiv b = -1 := by
  have hmod := Int.fdiv_add_fmod a b
  have hge := Int.fmod_nonneg' a hb
  have hlt := Int.fmod_lt_of_pos a hb
  have hq2 : -2 < a.fdiv b := by
    by_contra hcon
    push_neg at hcon
    have : b * a.fdiv b ≤ b * (-2) := by
      exact Int.mul_le_mul_of_nonneg_left hcon (by omega)
    omega
  have hq0 : a.fdiv b < 0 := by
    by_contra hcon
    push_neg at hcon
    have : b * 0 ≤ b * a.fdiv b := Int.mul_le_mul_of_nonneg_left hcon (by omega)
    omega
  omega

/-- The number of window starts `torch.arange(0, stop, step)` yields. -/
theorem arangeStep_length (stop step : Nat) :
    (arangeStep stop step).length = (stop + step - 1) / step := by
  simp [arangeStep]

/-- Reading a window that cannot fit (the extent is at most `st + w - 1`)
faults: the last read is out of range. -/
theorem mapM_get?_range_none {α : Type} (l : List α) (st w : Nat) (hw : 1 ≤ w)
    (h : l.length ≤ st + w - 1) :
    (List.range w).mapM (fun j => l.get? (st + j)) = none := by
  obtain ⟨n, rfl⟩ : ∃ n, w = n + 1 := ⟨w - 1, by omega⟩
  rw [List.range_succ, List.mapM_append]
  have hnone : l[st + n]? = none := List.getElem?_eq_none (by omega)
  cases hm : (List.range n).mapM (fun j => l.get? (st + j)) with
  | none => rfl
  | some a => simp [List.mapM.loop, List.get?_eq_getElem?, hnone]

/-- C4 counterexample: for extent `3`, window size `5` and step `1`,
`min_length = -1`, so the Python slice `low_indices[:-1]` keeps two window
starts whose reads run past the end, and the advanced indexing faults —
the function does not produce zero windows there. -/
theorem claim4_counterexample :
    custom_unfold ([0, 1, 2] : List Nat) 5 1 = none ∧
    custom_unfold ([0, 1, 2] : List Nat) 5 1 ≠ some [] := by
  constructor
  · rfl
  · intro hcon
    exact Option.noConfusion hcon

/-- C4 (amended): for step `s ≥ 1` and window size `1 ≤ w ≤ E`, the slicer
produces `floor((E - w) / s) + 1` windows, window `i` being the length-`w`
slice starting at offset `i * s`. For `w > E` it produces zero windows
exactly when the Python slice `low_indices[:min_length]` of window starts
is empty — which always holds for `E < w ≤ E + s` — and when that slice is
nonempty (possible only for `w > E + s`, as in the counterexample) every
retained start reads past the end and the slicer faults instead of
producing zero windows. -/
theorem claim4_amended {α : Type} (input : List α) (size step : Nat)
    (hsize : 1 ≤ size) (hstep : 1 ≤ step) :
    (size ≤ input.length →
      custom_unfold input size step =
        some ((List.range ((input.length - size) / step + 1)).map
          (fun i => (input.drop (i * step)).take size))) ∧
    (input.length < size → size ≤ input.length + step →
      custom_unfold input size step = some []) ∧
    (input.length < size →
      pyTake (((input.length : Int) - (size : Int)).fdiv (step : Int) + 1)
          (arangeStep input.length step) = [] →
      custom_unfold input size step = some []) ∧
    (input.length < size →
      pyTake (((input.length : Int) - (size : Int)).fdiv (step : Int) + 1)
          (arangeStep input.length step) ≠ [] →
      custom_unfold input size step = none) := by
  refine ⟨?_, ?_, ?_, ?_⟩
  · intro hle
    have hcast : ((input.length : Int) - (size : Int)) =
        ((input.length - size : Nat) : Int) := by omega
    have hminl : ((input.length : Int) - (size : Int)).fdiv (step : Int) + 1 =
        (((input.length - size) / step + 1 : Nat) : Int) := by
      rw [hcast, ← Int.ofNat_fdiv]
      push_cast
      ring
    have hnL : (input.length - size) / step + 1 ≤
        (input.length + step - 1) / step := by
      have h1 : input.length - size ≤ input.length - 1 := by omega
      have h2 : (input.length - size) / step ≤ (input.length - 1) / step :=
        Nat.div_le_div_right h1
      have h3 : (input.length - 1) / step + 1 = (input.length - 1 + step) / step := by
        rw [Nat.add_div_right _ hstep]
      have h4 : input.length - 1 + step = input.length + step - 1 := by omega
      rw [h4] at h3
      omega
    simp only [custom_unfold, hminl, pyTake]
    rw [if_pos (Int.natCast_nonneg _)]
    rw [Int.toNat_natCast]
    rw [arangeStep, ← List.map_take, List.take_range,
      Nat.min_eq_left hnL]
    rw [mapM_eq_some_map _ _ (fun st => (input.drop st).take size) ?_]
    · rw [List.map_map]
      rfl
    · intro st hst
      rw [List.mem_map] at hst
      obtain ⟨i, hi, rfl⟩ := hst
      rw [List.mem_range] at hi
      apply mapM_get?_range
      have hi2 : i ≤ (input.length - size) / step := by omega
      have : i * step ≤ ((input.length - size) / step) * step :=
        Nat.mul_le_mul_right _ hi2
      have hdm : ((input.length - size) / step) * step ≤ input.length - size :=
        Nat.div_mul_le_self _ _
      omega
  · intro hlt hlt2
    have hminl : ((input.length : Int) - (size : Int)).fdiv (step : Int) + 1 = 0 := by
      rw [fdiv_neg_small (by omega) (by omega) (by omega)]
      ring
    simp only [custom_unfold, hminl, pyTake]
    rw [if_pos (by omega)]
    rfl
  · intro _hlt hempty
    simp only [custom_unfold]
    rw [hempty]
    rfl
  · intro hlt hne
    obtain ⟨st, rest, hstarts⟩ : ∃ st rest,
        pyTake (((input.length : Int) - (size : Int)).fdiv (step : Int) + 1)
          (arangeStep input.length step) = st :: rest := by
      cases h : pyTake (((input.length : Int) - (size : Int)).fdiv (step : Int) + 1)
          (arangeStep input.length step) with
      | nil => exact absurd h hne
      | cons a b => exact ⟨a, b, rfl⟩
    simp only [custom_unfold]
    rw [hstarts, List.mapM_cons,
      mapM_get?_range_none input st size (by omega) (by omega)]
    rfl

/-- C4 witness: the amended theorem applied at extent 5, window size 2,
step 1, with every hypothesis discharged concretely. -/
theorem claim4_witness :
    custom_unfold ([0, 1, 2, 3, 4] : List Nat) 2 1 =
      some ((List.range ((([0, 1, 2, 3, 4] : List Nat).length - 2) / 1 + 1)).map
        (fun i => (([0, 1, 2, 3, 4] : List Nat).drop (i * 1)).take 2)) :=
  (claim4_amended [0, 1, 2, 3, 4] 2 1 (by decide) (by decide)).1 (by decide)

/-- A concrete well-formed configuration (the gpt-neo-1.3B defaults of the
source constructor) used to instantiate universally quantified claims. -/
def exampleConfig : GPTNeoConfig :=
  { vocab_size := 50257
    max_position_embeddings := 2048
    hidden_size := 2048
    num_layers := 24
    num_heads := 16
    window_size := 256
    attention_types := [(["global", "local"], 12)]
    attention_layers := expand_attention_types_params [(["global", "local"], 12)] }

/-- C5: in use-past mode (with the backend available), the builder returns
the keys in the order `input_ids`, `past_key_values`, `attention_mask`; the
past entries are one zero-filled (key, value) pair per layer, each of shape
`(batch, num_heads, 1, hidden_size / num_heads)`; and the attention mask's
sequence dimension is the original sequence length plus one, the extra
column being ones and the rest the original mask. -/
theorem claim5 (config : GPTNeoConfig) (ids mask : Tensor) (b s : Nat)
    (hids : ids.shape = [b, s]) (hmask : mask.shape = [b, s]) :
    ∃ past maskT,
      generate_dummy_inputs config true true ids mask =
        Except.ok [("input_ids", DummyValue.tensor ids),
                   ("past_key_values", DummyValue.pastPairs past),
                   ("attention_mask", DummyValue.tensor maskT)] ∧
      past.length = config.num_layers ∧
      (∀ p ∈ past,
        p.1.shape = [b, config.num_heads, 1, config.hidden_size / config.num_heads] ∧
        p.2.shape = [b, config.num_heads, 1, config.hidden_size / config.num_heads] ∧
        (∀ idx, p.1.val idx = 0) ∧ (∀ idx, p.2.val idx = 0)) ∧
      maskT.shape = [b, s + 1] ∧
      (∀ i j, j < s → maskT.val [i, j] = mask.val [i, j]) ∧
      (∀ i, maskT.val [i, s] = 1) := by
  refine ⟨List.replicate config.num_layers
      (Tensor.zeros [b, config.num_heads, 1, config.hidden_size / config.num_heads],
       Tensor.zeros [b, config.num_heads, 1, config.hidden_size / config.num_heads]),
    torch_cat_dim1 mask (Tensor.ones [b, 1]), ?_, ?_, ?_, ?_, ?_, ?_⟩
  · simp [generate_dummy_inputs, hids]
  · simp
  · intro p hp
    rw [List.mem_replicate] at hp
    rw [hp.2]
    exact ⟨rfl, rfl, fun _ => rfl, fun _ => rfl⟩
  · simp [torch_cat_dim1, Tensor.ones, hmask]
  · intro i j hj
    simp [torch_cat_dim1, hmask, hj]
  · intro i
    simp [torch_cat_dim1, Tensor.ones, hmask]

/-- C5 witness: the builder theorem applied at a concrete configuration and
concrete `2 × 3` input tensors, hypotheses discharged by `rfl`. -/
theorem claim5_witness :
    (Tensor.zeros [2, 3]).shape = [2, 3] ∧ (Tensor.ones [2, 3]).shape = [2, 3] ∧
    ∃ past maskT,
      generate_dummy_inputs exampleConfig true true
          (Tensor.zeros [2, 3]) (Tensor.ones [2, 3]) =
        Except.ok [("input_ids", DummyValue.tensor (Tensor.zeros [2, 3])),
                   ("past_key_values", DummyValue.pastPairs past),
                   ("attention_mask", DummyValue.tensor maskT)] ∧
      past.length = exampleConfig.num_layers ∧
      (∀ p ∈ past,
        p.1.shape = [2, exampleConfig.num_heads, 1,
          exampleConfig.hidden_size / exampleConfig.num_heads] ∧
        p.2.shape = [2, exampleConfig.num_heads, 1,
          exampleConfig.hidden_size / exampleConfig.num_heads] ∧
        (∀ idx, p.1.val idx = 0) ∧ (∀ idx, p.2.val idx = 0)) ∧
      maskT.shape = [2, 3 + 1] ∧
      (∀ i j, j < 3 → maskT.val [i, j] = (Tensor.ones [2, 3]).val [i, j]) ∧
      (∀ i, maskT.val [i, 3] = 1) :=
  ⟨rfl, rfl, claim5 exampleConfig (Tensor.zeros [2, 3]) (Tensor.ones [2, 3]) 2 3 rfl rfl⟩

/-- C8: requesting use-past mode without the numeric backend fails with
`MissingBackendError` (the error is returned before any past tensor is
built — the error branch constructs nothing), and no-past mode never fails
for this reason, whatever the backend availability. -/
theorem claim8 (config : GPTNeoConfig) (ids mask : Tensor) :
    generate_dummy_inputs config true false ids mask =
      Except.error OsloError.missingBackend ∧
    (∀ torch_available : Bool,
      generate_dummy_inputs config false torch_available ids mask =
        Except.ok [("input_ids", DummyValue.tensor ids),
                   ("attention_mask", DummyValue.tensor mask)]) := by
  exact ⟨rfl, fun _ => rfl⟩

/-- C6: `reduce_arguments` sets the attention's embedding dimension to
`hidden_size / world_size` and its head count to `num_heads / world_size`,
as a function of the configuration and shard count only (independent of
the block's prior state); with hidden size 2048 and head count 16 at shard
count 4 it yields 512 and 4; and re-running with the same shard count
leaves the state fixed (idempotent, not cumulative). -/
theorem claim6 {P : Type} (layer : GPTNeoBlock P) (world_size : Nat)
    (config : GPTNeoConfig) :
    ((reduce_arguments layer world_size config).1.attn.attention.embed_dim =
        config.hidden_size / world_size ∧
      (reduce_arguments layer world_size config).1.attn.attention.num_heads =
        config.num_heads / world_size) ∧
    (∀ other : GPTNeoBlock P,
      (reduce_arguments other world_size config).1.attn.attention.embed_dim =
        (reduce_arguments layer world_size config).1.attn.attention.embed_dim ∧
      (reduce_arguments other world_size config).1.attn.attention.num_heads =
        (reduce_arguments layer world_size config).1.attn.attention.num_heads) ∧
    reduce_arguments (reduce_arguments layer world_size config).1 world_size
        (reduce_arguments layer world_size config).2 =
      reduce_arguments layer world_size config ∧
    ((reduce_arguments layer 4 exampleConfig).1.attn.attention.num_heads = 4 ∧
      (reduce_arguments layer 4 exampleConfig).1.attn.attention.embed_dim = 512) :=
  ⟨⟨rfl, rfl⟩, fun _ => ⟨rfl, rfl⟩, rfl, rfl, rfl⟩

/-- C7: the GPT-Neo policy's `attn_qkv` returns exactly three descriptors —
the query, key and value projections in order — each carrying the
projection's weight only (no bias), each with the substitution rule
`nn.Linear → ColumnParallelLinear`; and `attn_out` returns exactly one
descriptor for the output projection, carrying both weight and bias, with
the rule `nn.Linear → RowParallelLinear`. -/
theorem claim7 {P : Type} (layer : GPTNeoBlock P) (config : GPTNeoConfig) :
    (attn_qkv layer config).length = 3 ∧
    (attn_qkv layer config).map Layer.module =
      [some layer.attn.attention.q_proj, some layer.attn.attention.k_proj,
       some layer.attn.attention.v_proj] ∧
    (attn_qkv layer config).map Layer.weight =
      [some layer.attn.attention.q_proj.weight,
       some layer.attn.attention.k_proj.weight,
       some layer.attn.attention.v_proj.weight] ∧
    (attn_qkv layer config).map Layer.bias = [none, none, none] ∧
    (attn_qkv layer config).map Layer.replace =
      [[(ModuleKind.linear, ModuleKind.columnParallelLinear)],
       [(ModuleKind.linear, ModuleKind.columnParallelLinear)],
       [(ModuleKind.linear, ModuleKind.columnParallelLinear)]] ∧
    attn_out layer config =
      [{ module := some layer.attn.attention.out_proj
         weight := some layer.attn.attention.out_proj.weight
         bias := some layer.attn.attention.out_proj.bias
         replace := [(ModuleKind.linear, ModuleKind.rowParallelLinear)] }] :=
  ⟨rfl, rfl, rfl, rfl, rfl, rfl⟩

/-- C10: `reduce_arguments` writes only the attention sub-module's
`embed_dim` and `num_heads`; every other field of the block — both norms,
the MLP, all four projections, and both non-trainable buffers — is
unchanged, and the configuration comes back unmodified. -/
theorem claim10 {P : Type} (layer : GPTNeoBlock P) (world_size : Nat)
    (config : GPTNeoConfig) :
    (reduce_arguments layer world_size config).2 = config ∧
    (reduce_arguments layer world_size config).1.ln_1 = layer.ln_1 ∧
    (reduce_arguments layer world_size config).1.ln_2 = layer.ln_2 ∧
    (reduce_arguments layer world_size config).1.mlp = layer.mlp ∧
    (reduce_arguments layer world_size config).1.attn.attention.q_proj =
      layer.attn.attention.q_proj ∧
    (reduce_arguments layer world_size config).1.attn.attention.k_proj =
      layer.attn.attention.k_proj ∧
    (reduce_arguments layer world_size config).1.attn.attention.v_proj =
      layer.attn.attention.v_proj ∧
    (reduce_arguments layer world_size config).1.attn.attention.out_proj =
      layer.attn.attention.out_proj ∧
    (reduce_arguments layer world_size config).1.attn.attention.bias =
      layer.attn.attention.bias ∧
    (reduce_arguments layer world_size config).1.attn.attention.masked_bias =
      layer.attn.attention.masked_bias ∧
    (reduce_arguments layer world_size config).1.attn.attention.embed_dim =
      config.hidden_size / world_size ∧
    (reduce_arguments layer world_size config).1.attn.attention.num_heads =
      config.num_heads / world_size :=
  ⟨rfl, rfl, rfl, rfl, rfl, rfl, rfl, rfl, rfl, rfl, rfl, rfl⟩
